import Mathlib

/-!
Verification development for the Stock-Bot repository (Taiwan-market stock
LINE bot).  The Python sources are shallowly embedded: pure string
processing becomes Lean functions, the network / AI / file-system effects
become explicit outcome parameters, machine behaviour of CPython's `re`
module is modelled operationally for the two concrete patterns the code
uses.  All definitions are computable so that concrete inputs evaluate by
`decide` or `rfl`.
-/

namespace StockBot

/-! ## CPython `re` character classes (the fragment the repository uses)

Python 3 `re` matches in Unicode mode: `\d` is a Unicode decimal digit and
`\w` a Unicode word character (letters including CJK ideographs, digits,
underscore).  The repository's inputs use ASCII digits and CJK Unified
Ideographs, so we model exactly that fragment: `pyIsDigit` is the ASCII
decimal digit test and `pyIsWord` additionally accepts `_`, ASCII letters
and the CJK Unified Ideographs block U+4E00–U+9FFF.  (Other Unicode digit
or letter ranges never occur in the embedded inputs.) -/

def pyIsDigit (c : Char) : Bool := c.isDigit

def isCJK (c : Char) : Bool := 0x4E00 ≤ c.toNat && c.toNat ≤ 0x9FFF

def pyIsWord (c : Char) : Bool := c.isAlphanum || c = '_' || isCJK c

/-- Python `str.isdigit()` on the modelled character set: nonempty and all
decimal digits. -/
def pyStrIsDigit (s : String) : Bool := !s.data.isEmpty && s.data.all pyIsDigit

/-- Python `str.upper()` on the modelled character set (ASCII letters are
upcased, CJK characters are unchanged — as in CPython). -/
def pyUpper (s : String) : String := String.mk (s.data.map Char.toUpper)

def mkStr (l : List Char) : String := String.mk l

/-- Python `str.strip()` with no argument: remove leading and trailing
whitespace. -/
def pyStrip (s : String) : String :=
  String.mk (((s.data.dropWhile Char.isWhitespace).reverse.dropWhile Char.isWhitespace).reverse)

/-! ## `re.findall(r'\d{4,6}', text)` — the demo resolver's pattern

Operational model of the scan: at each position the engine attempts a
match; `\d{4,6}` is greedy, so a match takes `min 6` of the digits running
from the position and requires at least 4; on success the scan resumes
after the match, on failure it advances one character.  Fuel (the string
length) keeps the recursion structural so the kernel can evaluate it. -/

def findallPlainAux : Nat → List Char → List (List Char)
  | 0, _ => []
  | _ + 1, [] => []
  | fuel + 1, c :: rest =>
    let run := (c :: rest).takeWhile pyIsDigit
    if 4 ≤ run.length then
      let m := run.take 6
      m :: findallPlainAux fuel ((c :: rest).drop m.length)
    else
      findallPlainAux fuel rest

def findallPlain (s : List Char) : List (List Char) := findallPlainAux s.length s

/-! ## `re.findall(r'\b\d{4,6}\b', text)` — the services resolver's pattern

`\b` holds between two positions whose word-character status differs (the
virtual characters before and after the string are non-word).  A match at a
position needs: a word boundary before the first digit, then greedily
6, 5 or 4 digits (backtracking order of `{4,6}`), then a word boundary
after the last digit — i.e. end of input or a non-word character.  Note a
CJK ideograph IS a word character, so a digit run flanked by CJK text has
no boundary and does not match. -/

def tailBoundary : List Char → Bool
  | [] => true
  | c :: _ => !pyIsWord c

/-- One match attempt of `\b\d{4,6}\b` at the head of `s`, where `w` is the
word-character status of the preceding character (`false` at the start of
the string).  Greedy `{4,6}` with backtracking: try 6 digits, then 5,
then 4. -/
def matchBAt (w : Bool) (s : List Char) : Option (List Char) :=
  match s with
  | [] => none
  | c :: _ =>
    if w = pyIsWord c then none
    else if (s.take 6).length = 6 && (s.take 6).all pyIsDigit && tailBoundary (s.drop 6) then
      some (s.take 6)
    else if (s.take 5).length = 5 && (s.take 5).all pyIsDigit && tailBoundary (s.drop 5) then
      some (s.take 5)
    else if (s.take 4).length = 4 && (s.take 4).all pyIsDigit && tailBoundary (s.drop 4) then
      some (s.take 4)
    else none

def findallBAux : Nat → Bool → List Char → List (List Char)
  | 0, _, _ => []
  | _ + 1, _, [] => []
  | fuel + 1, w, c :: rest =>
    match matchBAt w (c :: rest) with
    | some m =>
      let w2 := (m.getLast?).elim w pyIsWord
      m :: findallBAux fuel w2 ((c :: rest).drop m.length)
    | none => findallBAux fuel (pyIsWord c) rest

def findallB (s : List Char) : List (List Char) := findallBAux s.length false s

/-! ## `list(set(matches))`

CPython builds a hash set and lists it in hash-table order, which is
unspecified (string hashing is randomized per process).  We model it as
one canonical deduplication — the distinct elements, here in first-seen
order; theorems about it only use distinctness and membership, never the
order. -/

def pySetAux : List String → List String → List String
  | _, [] => []
  | seen, x :: xs => if x ∈ seen then pySetAux seen xs else x :: pySetAux (x :: seen) xs

def pySetList (l : List String) : List String := pySetAux [] l

/-! ## Substring test (used to state facts about produced messages) -/

def startsWithSeq : List Char → List Char → Bool
  | [], _ => true
  | _ :: _, [] => false
  | p :: ps, c :: cs => p = c && startsWithSeq ps cs

def containsSeq (pat : List Char) : List Char → Bool
  | [] => startsWithSeq pat []
  | c :: rest => startsWithSeq pat (c :: rest) || containsSeq pat rest

/-! ## The AI gateway at the boundary

The Gemini calls are external.  A call either raises (any provider
exception) or yields a response text; the repository's resolvers only look
at `response.text`. -/

inductive AIOutcome
  | failure
  | success (text : String)
deriving DecidableEq

/-! ## `extract_stock_id_from_text` (src/services/stock_chart.py, lines 112–157)

```python
matches = re.findall(r'\b\d{4,6}\b', user_input)
if matches:
    return list(set(matches))
if not user_input.isdigit() and genai.get_api_key():
    try:
        ... response = model.generate_content(prompt)
        ai_response = response.text.strip()
        if ai_response.upper() == "NONE": return None
        ai_matches = re.findall(r'\b\d{4,6}\b', ai_response)
        if ai_matches: return list(set(ai_matches))
        return None
    except Exception: return None
return None
```

`aiConfigured` models `genai.get_api_key()` being truthy; `ai` the Gemini
call's outcome.  The second component of the result records whether the AI
fallback was invoked. -/

def extract_stock_id_from_text (aiConfigured : Bool) (ai : AIOutcome)
    (user_input : String) : Option (List String) × Bool :=
  let ms := (findallB user_input.data).map mkStr
  if ms ≠ [] then
    (some (pySetList ms), false)
  else if !pyStrIsDigit user_input && aiConfigured then
    match ai with
    | .failure => (none, true)
    | .success t =>
      let ai_response := pyStrip t
      if pyUpper ai_response = "NONE" then (none, true)
      else
        let ai_matches := (findallB ai_response.data).map mkStr
        if ai_matches ≠ [] then (some (pySetList ai_matches), true)
        else (none, true)
  else (none, false)

/-! ## `extract_stock_id` (src/stock_chart+ans.py, lines 46–60)

```python
match = re.findall(r'\d{4,6}', user_input)
if match:
    return match
try:
    ... response = model.generate_content(prompt)
    ai_response = response.text
    match = re.findall(r'\d{4,6}', ai_response)
    return match if match else None
except Exception: return None
```

No `\b` anchors, no `set`, no strip, no "None" check; the AI path is
always attempted when the regex finds nothing. -/

def extract_stock_id (ai : AIOutcome) (user_input : String) :
    Option (List String) × Bool :=
  let m := (findallPlain user_input.data).map mkStr
  if m ≠ [] then (some m, false)
  else
    match ai with
    | .failure => (none, true)
    | .success t =>
      let m2 := (findallPlain t.data).map mkStr
      (if m2 ≠ [] then some m2 else none, true)

/-! ## `DEFAULT_STOCK_DATA` (src/services/stock_chart.py, lines 73–97)

The static company-name → code table, embedded verbatim in source order
(a Python `dict` literal with distinct keys; lookup by exact key). -/

def DEFAULT_STOCK_DATA : List (String × String) := [
  ("中油", "6505"), ("台積電", "2330"), ("鴻海", "2317"), ("台泥", "1101"), ("富邦金", "2881"),
  ("儒鴻", "1476"), ("技嘉", "2376"), ("潤泰全", "2915"), ("同欣電", "6271"), ("亞泥", "1102"),
  ("國泰金", "2882"), ("聚陽", "1477"), ("微星", "2377"), ("神基", "3005"), ("台表科", "6278"),
  ("統一", "1216"), ("玉山金", "2884"), ("東元", "1504"), ("台光電", "2383"), ("信邦", "3023"),
  ("啟碁", "6285"), ("台塑", "1301"), ("元大金", "2885"), ("華新", "1605"), ("群光", "2385"),
  ("欣興", "3037"), ("旭隼", "6409"), ("南亞", "1303"), ("兆豐金", "2886"), ("長興", "1717"),
  ("漢唐", "2404"), ("健鼎", "3044"), ("GIS-KY", "6456"), ("台化", "1326"), ("台新金", "2887"),
  ("台肥", "1722"), ("友達", "2409"), ("景碩", "3189"), ("愛普", "6531"), ("遠東新", "1402"),
  ("中信金", "2891"), ("台玻", "1802"), ("超豐", "2441"), ("緯創", "3231"), ("和潤企業", "6592"),
  ("亞德客-KY", "1590"), ("第一金", "2892"), ("永豐餘", "1907"), ("京元電子", "2449"), ("玉晶光", "3406"),
  ("富邦媒", "8454"), ("中鋼", "2002"), ("統一超", "2912"), ("大成鋼", "2027"), ("義隆", "2458"),
  ("創意", "3443"), ("億豐", "8464"), ("正新", "2105"), ("大立光", "3008"), ("上銀", "2049"),
  ("華新科", "2492"), ("群創", "3481"), ("寶成", "9904"), ("和泰車", "2207"), ("聯詠", "3034"),
  ("川湖", "2059"), ("興富發", "2542"), ("台勝科", "3532"), ("美利達", "9914"), ("聯電", "2303"),
  ("台灣大", "3045"), ("南港", "2101"), ("長榮", "2603"), ("嘉澤", "3533"), ("中保科", "9917"),
  ("台達電", "2308"), ("日月光投控", "3711"), ("裕隆", "2201"), ("裕民", "2606"), ("聯合再生", "3576"),
  ("巨大", "9921"), ("國巨", "2327"), ("遠傳", "4904"), ("裕日車", "2227"), ("陽明", "2609"),
  ("健策", "3653"), ("裕融", "9941"), ("台塑化", "6505"), ("聯強", "2347"), ("臺企銀", "2834"),
  ("臻鼎-KY", "4958"), ("南電", "8046"), ("佳世達", "2352"), ("遠東銀", "2845"), ("祥碩", "5269"),
  ("聯發科", "2454"), ("豐泰", "9910"), ("宏碁", "2353"), ("開發金", "2883"), ("遠雄", "5522"),
  ("可成", "2474"), ("大成", "1210"), ("鴻準", "2354"), ("新光金", "2888"), ("瑞儀", "6176"),
  ("台灣高鐵", "2633"), ("佳格", "1227"), ("英業達", "2356"), ("國票金", "2889"), ("聯茂", "6213"),
  ("彰銀", "2801"), ("聯華", "1229"), ("致茂", "2360"), ("永豐金", "2890"), ("力成", "6239")]

/-- Exactly a 4–6 digit token. -/
def isStockCodeToken (s : String) : Bool :=
  4 ≤ s.length && s.length ≤ 6 && s.data.all pyIsDigit && !s.data.isEmpty

/-- Modelled from the spec: `resolveOne` — the single-identifier resolver
behind `generate_stock_chart_url`, which src/services/app.py imports from
the stock_chart module but whose definition is missing from the repository
snapshot (src/services/stock_chart.py defines only
`generate_stock_chart_image`).  Spec §4.3: "if the identifier is exactly a
4–6 digit token, treat it directly as a code …; else if it exactly matches
a table entry, map to that code; else return unresolved.  This variant
never calls the AI gateway."  Accordingly the definition takes no AI
outcome at all; the table is the source's `DEFAULT_STOCK_DATA`. -/
def resolveOne (identifier : String) : Option String :=
  if isStockCodeToken identifier then some identifier
  else
    match DEFAULT_STOCK_DATA.lookup identifier with
    | some code => some code
    | none => none

/-! ## Python `float(str)` on the quote API's value domain

The exchange's quote endpoint returns prices as finite decimal strings
(`"605.0000"`, `"1178.5"`) or the placeholder `"-"`.  `float()` strips
surrounding whitespace and accepts an optional sign, an integer part and
an optional fractional part, at least one digit overall; anything else
raises `ValueError`.  (Exponent forms, `inf`/`nan` and `_` separators are
outside the modelled domain — the upstream never produces them.) -/

def digitsVal : List Char → Nat
  | [] => 0
  | c :: cs => (c.toNat - 48) * 10 ^ cs.length + digitsVal cs

def pyFloat (s : String) : Option ℚ :=
  let l := (pyStrip s).data
  let (sign, l) : ℚ × List Char :=
    match l with
    | '-' :: t => (-1, t)
    | '+' :: t => (1, t)
    | t => (1, t)
  let intPart := l.takeWhile (· ≠ '.')
  let rest := l.drop intPart.length
  let frac : Option (List Char) :=
    match rest with
    | [] => some []
    | '.' :: t => if t.all (· ≠ '.') then some t else none
    | _ => none
  match frac with
  | none => none
  | some f =>
    if intPart.all pyIsDigit && f.all pyIsDigit && !(intPart.isEmpty && f.isEmpty) then
      some (sign * ((digitsVal intPart : ℚ) + (digitsVal f : ℚ) / (10 : ℚ) ^ f.length))
    else none

/-- Python `f"{v:.2f}"`: render with exactly two digits after the decimal
point.  The rounding to the nearest hundredth is modelled with Mathlib's
`round` on ℚ; CPython rounds the nearest binary double, which agrees
except at representation boundaries that the claims do not touch — the
claims are about the two-decimal shape of the output. -/
def toFixed2 (q : ℚ) : String :=
  let n : ℤ := round (q * 100)
  let a := n.natAbs
  (if n < 0 then "-" else "") ++ toString (a / 100) ++ "." ++
    String.mk [Char.ofNat (48 + a % 100 / 10), Char.ofNat (48 + a % 100 % 10)]

/-- The string ends in a decimal point followed by exactly two digits. -/
def twoDecimalShape (s : String) : Prop :=
  ∃ pre a b, s.data = pre ++ ['.', a, b] ∧ a.isDigit = true ∧ b.isDigit = true

/-! ## `get_stock_price` (src/services/stock_price.py, lines 7–100)

The HTTP call is external; its outcome is the parameter.  `serverOk`
carries the decoded JSON body: an optional `msgArray` whose elements are
string-keyed records (association lists), matching `data.get('msgArray')`
and `stock_info.get(...)`.  The per-field formatting:

```python
if value == '-': formatted = '-'
else:
    try: formatted = f"{float(value):.2f}"
    except ValueError: formatted = '-'
```
-/

def fmtPrice (value : String) : String :=
  if value = "-" then "-"
  else
    match pyFloat value with
    | some q => toFixed2 q
    | none => "-"

structure QuoteBody where
  msgArray : Option (List (List (String × String)))

inductive QuoteOutcome
  | serverOk (body : QuoteBody)
  | httpError (status : Nat)
  | connectionError
  | timeout
  | requestError
  | jsonError
  | unexpectedError

/-- The full body of `get_stock_price`: every exception class has its own
message, so the function is total — its Lean type is plain `String`. -/
def get_stock_price (stock_id : String) (outcome : QuoteOutcome) : String :=
  match outcome with
  | .serverOk body =>
    match body.msgArray with
    | some (stock_info :: _) =>
      if ["n", "z", "o", "h", "l", "y"].all (fun k => (stock_info.lookup k).isSome) then
        let name := (stock_info.lookup "n").getD "未知名稱"
        let current_price := (stock_info.lookup "z").getD "-"
        let open_price := (stock_info.lookup "o").getD "-"
        let high := (stock_info.lookup "h").getD "-"
        let low := (stock_info.lookup "l").getD "-"
        let prev_close := (stock_info.lookup "y").getD "-"
        "📈【" ++ name ++ "】(" ++ stock_id ++ ")\n" ++
          "即時：" ++ fmtPrice current_price ++ "\n" ++
          "開盤：" ++ fmtPrice open_price ++ "\n" ++
          "最高：" ++ fmtPrice high ++ "\n" ++
          "最低：" ++ fmtPrice low ++ "\n" ++
          "昨收：" ++ fmtPrice prev_close
      else
        "代號 " ++ stock_id ++ " 的資料格式有誤，部分資訊可能缺失。"
    | some [] =>
      "查無代號 " ++ stock_id ++ " 的上市股票資料，請確認輸入是否正確，或該股票是否為上市股票。"
    | none =>
      "查無代號 " ++ stock_id ++ " 的上市股票資料，請確認輸入是否正確，或該股票是否為上市股票。"
  | .httpError status =>
    "無法取得股票資料(" ++ stock_id ++ ")，網路請求錯誤：" ++ toString status
  | .connectionError => "無法取得股票資料(" ++ stock_id ++ ")，網路連接失敗。"
  | .timeout => "無法取得股票資料(" ++ stock_id ++ ")，請求超時。"
  | .requestError => "無法取得股票資料(" ++ stock_id ++ ")，發生未知的網路請求問題。"
  | .jsonError => "無法解析股票資料(" ++ stock_id ++ ")，資料格式可能不正確。"
  | .unexpectedError => "無法取得股票資料(" ++ stock_id ++ ")，發生未預期錯誤，請稍後再試。"

/-! ## News search and summary (src/services/news_summary.py)

`get_first_news_url_from_google` (lines 91–138): the Google search is
external; its outcome is the parameter.  On results it returns the first
URL; with no results `None`; an HTTP 429 from the provider returns the
special throttling STRING (conflated with the URL channel, as in the
source); other HTTP errors and all other exceptions return `None`. -/

inductive SearchOutcome
  | ok (results : List String)
  | http429
  | httpOther
  | otherError

def get_first_news_url_from_google (outcome : SearchOutcome) : Option String :=
  match outcome with
  | .ok [] => none
  | .ok (first_url :: _) => some first_url
  | .http429 => some "搜尋請求過於頻繁，請稍後再試。"
  | .httpOther => none
  | .otherError => none

/-- `process_news_query_and_get_summary` (lines 193–214).  The zero-result
branch of the source is, verbatim,

```python
return "抱歉，目前無法找到與「{user_query}」相關的新聞，請檢查關鍵字或稍後再試。"
```

— a PLAIN string literal, not an f-string: the characters `\x7buser_query\x7d`
appear literally in the reply and the keyword is never interpolated.
The article-extraction-and-summary stage (`extract_and_summarize_news_article`)
is independent of the claims settled here and is abstracted as the
`extractResult` parameter. -/
def process_news_query_and_get_summary (_user_query : String)
    (search : SearchOutcome) (extractResult : String) : String :=
  let news_url := get_first_news_url_from_google search
  match news_url with
  | none => "抱歉，目前無法找到與「\x7buser_query\x7d」相關的新聞，請檢查關鍵字或稍後再試。"
  | some u =>
    if u = "搜尋請求過於頻繁，請稍後再試。" then u
    else extractResult

/-! ## Historical data and chart pipeline (src/services/stock_chart.py)

`twstock.Stock(stock_id)` is external: it either raises (bad code, network)
or yields the per-code column arrays.  `pandas`, `matplotlib` and the
Cloudinary upload are likewise external; what the embedding keeps is the
control flow that decides the returned value and the temporary file's
fate. -/

structure TwStockData where
  date : List Int
  openP : List ℚ
  high : List ℚ
  low : List ℚ
  close : List ℚ
  price : List ℚ
  capacity : List Int
deriving DecidableEq

structure ChartRow where
  date : Int
  openP : ℚ
  high : ℚ
  low : ℚ
  close : ℚ
  volume : Int
deriving DecidableEq

/-- The `pd.DataFrame(data)` columns zipped into rows (lengths checked
separately, as pandas raises on ragged input). -/
def buildRows : List Int → List ℚ → List ℚ → List ℚ → List ℚ → List Int → List ChartRow
  | d :: ds, o :: os, h :: hs, l :: ls, c :: cs, v :: vs =>
    ⟨d, o, h, l, c, v⟩ :: buildRows ds os hs ls cs vs
  | _, _, _, _, _, _ => []

def sameLengths (s : TwStockData) : Bool :=
  s.openP.length = s.date.length && s.high.length = s.date.length &&
  s.low.length = s.date.length && s.close.length = s.date.length &&
  s.capacity.length = s.date.length

def insertRow (r : ChartRow) : List ChartRow → List ChartRow
  | [] => [r]
  | x :: xs => if r.date ≤ x.date then r :: x :: xs else x :: insertRow r xs

/-- `df.sort_values(by='date')`. -/
def sortByDate (l : List ChartRow) : List ChartRow := l.foldr insertRow []

/-- `get_stock_data_for_chart` (lines 160–208).  `fetch` is the outcome of
`twstock.Stock(stock_id)`; `now` is `datetime.now()` as a day number; the
cutoff is `now - months*30` days.  Any exception in the body (including a
ragged `pd.DataFrame`) is caught and turned into `None`. -/
def get_stock_data_for_chart (fetch : Except Unit TwStockData) (now : Int)
    (months : Int := 6) : Option (List ChartRow) :=
  match fetch with
  | .error _ => none
  | .ok stock =>
    if stock.price = [] then none
    else if !sameLengths stock then none
    else
      let start_date := now - months * 30
      let df := buildRows stock.date stock.openP stock.high stock.low stock.close stock.capacity
      let df := df.filter fun r => start_date ≤ r.date
      if df = [] then none
      else some (sortByDate df)

/-- The `try:` block of `generate_stock_chart_image` from the point where
`plt.savefig(temp_image_file.name)` has created the temporary PNG: second
component = "the temporary file exists".  Early `return None` on
incomplete Cloudinary credentials, `None` on an upload exception, the
secure URL on success — in every case the file still exists when the block
is left. -/
def chartTryBody (cloudinaryOk : Bool) (upload : Except Unit String) :
    Option String × Bool :=
  if !cloudinaryOk then (none, true)
  else
    match upload with
    | .error _ => (none, true)
    | .ok url => (some url, true)

/-- The `finally:` clause: `if temp_image_file and os.path.exists(...):
os.remove(...)` — whatever the try block produced, an existing temporary
file is removed. -/
def chartFinally : Option String × Bool → Option String × Bool
  | (r, ex) => (r, if ex then false else ex)

/-- `generate_stock_chart_image` (lines 210–293) called with
`data_df=None`, so the history is fetched via `get_stock_data_for_chart`.
Result: the Cloudinary URL or `None`; plus whether the temporary image
file still exists after the function returns.  (Name resolution and the
matplotlib rendering do not influence either and are elided.) -/
def generate_stock_chart_image (fetch : Except Unit TwStockData) (now : Int)
    (cloudinaryOk : Bool) (upload : Except Unit String) : Option String × Bool :=
  match get_stock_data_for_chart fetch now 6 with
  | none => (none, false)
  | some df =>
    if df = [] then (none, false)
    else chartFinally (chartTryBody cloudinaryOk upload)

/-- `txt_to_img_url` (src/stock_chart+ans.py, lines 102–125) with
`upload_to_cloudinary` (lines 93–99, which catches its own exceptions and
returns `None` on failure — hence the plain `Option String` parameter):

```python
try:
    stock = twstock.Stock(stock_id)
    df = pd.DataFrame({'date': stock.date, 'close': stock.close})
    df.plot(...); plt.savefig(file_name); plt.close()
    image_url = upload_to_cloudinary(file_name)
    if image_url:
        os.remove(file_name)
        return image_url
    else:
        return None           # the file is NOT removed on this path
except Exception:
    return None
```

Second component: whether `{stock_id}.png` exists after the call. -/
def txt_to_img_url (fetch : Except Unit TwStockData) (upload : Option String) :
    Option String × Bool :=
  match fetch with
  | .error _ => (none, false)
  | .ok stock =>
    if stock.date.length ≠ stock.close.length then (none, false)
    else
      match upload with
      | some url => (some url, false)
      | none => (none, true)

/-! ## Messaging bot controller (src/services/app.py)

`handle_text_message` (lines 107–201).  The per-user pending-action map
`user_next_action` is the only mutable state; the three downstream
services, Gemini and the reply-send call are external, so their outcomes
are the `DownstreamEnv` parameter.  An `Except.error` outcome stands for
the downstream call raising, which the handler's outer `try/except`
catches, replying with the generic apology — in the source the pop at
line 119 has already happened by then, and no branch re-raises. -/

inductive PendingAction
  | price
  | chart
  | news
deriving DecidableEq

inductive GeminiOutcome
  | response (text : String) (blocked : Bool)
  | raised
deriving DecidableEq

inductive Reply
  | text (s : String)
  | image (originalContentUrl previewImageUrl : String)
deriving DecidableEq

structure DownstreamEnv where
  priceResult : Except Unit String
  chartUrl : Except Unit (Option String)
  newsResult : Except Unit String
  geminiInitialized : Bool
  gemini : GeminiOutcome

def genericErrorReply : Reply := .text "哎呀，系統發生了一點小狀況，請稍後再試！"

def handle_text_message (m : String → Option PendingAction) (user_id : String)
    (raw : String) (env : DownstreamEnv) :
    (String → Option PendingAction) × List Reply :=
  let user_message := pyStrip raw
  let current_action := m user_id
  let popped : String → Option PendingAction := fun u => if u = user_id then none else m u
  match current_action with
  | some .price =>
    match env.priceResult with
    | .ok price_info => (popped, [.text price_info])
    | .error _ => (popped, [genericErrorReply])
  | some .chart =>
    match env.chartUrl with
    | .ok (some chart_url) => (popped, [.image chart_url chart_url])
    | .ok none => (popped, [.text ("抱歉，無法產生「" ++ user_message ++ "」的走勢圖。")])
    | .error _ => (popped, [genericErrorReply])
  | some .news =>
    match env.newsResult with
    | .ok news_summary_text => (popped, [.text news_summary_text])
    | .error _ => (popped, [genericErrorReply])
  | none =>
    if user_message = "我想看股價" then
      (fun u => if u = user_id then some .price else popped u,
       [.text "好的！請輸入您想查詢的股票代號："])
    else if user_message = "我想看走勢圖" then
      (fun u => if u = user_id then some .chart else popped u,
       [.text "沒問題～請輸入股票代號或公司全名："])
    else if user_message = "我想知道最近的股市時事" then
      (fun u => if u = user_id then some .news else popped u,
       [.text "交給我！請輸入您想查詢的股市時事關鍵字："])
    else if env.geminiInitialized then
      match env.gemini with
      | .raised => (popped, [.text "抱歉，AI 聊天功能暫時出現問題，請稍後再試。"])
      | .response t blocked =>
        let r0 := pyStrip t
        let r1 := if r0 = "" && blocked then "抱歉，我無法回覆此內容，可能涉及敏感資訊。" else r0
        let r2 := if r1 = "" then "嗯...我目前無法處理這個請求。" else r1
        (popped, [.text r2])
    else
      (popped, [.text "你好，想聊些什麼呢？（AI 聊天功能整備中）"])

/-! ## Webhook entry `callback` (src/services/app.py, lines 85–103)

`webhook_handler.handle(body, signature)` is the LINE SDK: it verifies the
HMAC signature over the raw body before dispatching any handler, raising
`InvalidSignatureError` on mismatch (so no handler ran); any other
exception from dispatching propagates to the `except Exception` arm.  The
outcome of that call is the parameter; `callback`'s value is
(HTTP status, response body, the replies the dispatched handlers sent). -/

inductive HandlerOutcome
  | invalidSignature
  | raised
  | ok (dispatched : List Reply)

def callback (sdkInitialized : Bool) (h : HandlerOutcome) :
    Nat × Option String × List Reply :=
  if !sdkInitialized then (500, none, [])
  else
    match h with
    | .invalidSignature => (400, none, [])
    | .raised => (500, none, [])
    | .ok dispatched => (200, some "OK", dispatched)

/-! ## Helper lemmas -/

theorem mem_pySetAux (x : String) :
    ∀ (xs seen : List String), x ∈ pySetAux seen xs ↔ x ∈ xs ∧ x ∉ seen := by
  intro xs
  induction xs with
  | nil => intro seen; simp [pySetAux]
  | cons y ys ih =>
    intro seen
    by_cases hy : y ∈ seen
    · rw [show pySetAux seen (y :: ys) = pySetAux seen ys from by simp [pySetAux, hy], ih]
      constructor
      · rintro ⟨h1, h2⟩; exact ⟨List.mem_cons_of_mem y h1, h2⟩
      · rintro ⟨h1, h2⟩
        rcases List.mem_cons.mp h1 with rfl | h1
        · exact absurd hy h2
        · exact ⟨h1, h2⟩
    · rw [show pySetAux seen (y :: ys) = y :: pySetAux (y :: seen) ys from by
        simp [pySetAux, hy]]
      constructor
      · intro h
        rcases List.mem_cons.mp h with rfl | h
        · exact ⟨List.mem_cons_self x ys, hy⟩
        · rw [ih] at h
          refine ⟨List.mem_cons_of_mem y h.1, fun hs => h.2 (List.mem_cons_of_mem y hs)⟩
      · rintro ⟨h1, h2⟩
        rcases List.mem_cons.mp h1 with rfl | h1
        · exact List.mem_cons_self x _
        · by_cases hxy : x = y
          · subst hxy; exact List.mem_cons_self x _
          · exact List.mem_cons_of_mem y ((ih _).mpr ⟨h1, by
              intro hs
              rcases List.mem_cons.mp hs with h | h
              · exact hxy h
              · exact h2 h⟩)

theorem pySetAux_nodup : ∀ (xs seen : List String), (pySetAux seen xs).Nodup := by
  intro xs
  induction xs with
  | nil => intro seen; simp [pySetAux]
  | cons y ys ih =>
    intro seen
    by_cases hy : y ∈ seen
    · simpa [pySetAux, hy] using ih seen
    · rw [show pySetAux seen (y :: ys) = y :: pySetAux (y :: seen) ys from by
        simp [pySetAux, hy]]
      refine List.nodup_cons.mpr ⟨fun hmem => ?_, ih _⟩
      exact ((mem_pySetAux y ys (y :: seen)).mp hmem).2 (List.mem_cons_self y seen)

theorem mem_pySetList (x : String) (l : List String) : x ∈ pySetList l ↔ x ∈ l := by
  rw [pySetList, mem_pySetAux]; simp

theorem pySetList_nodup (l : List String) : (pySetList l).Nodup := pySetAux_nodup l []

theorem digitChar_isDigit (k : Nat) (h : k ≤ 9) : (Char.ofNat (48 + k)).isDigit = true := by
  interval_cases k <;> decide

theorem toFixed2_shape (q : ℚ) : twoDecimalShape (toFixed2 q) := by
  refine ⟨((if round (q * 100) < 0 then "-" else "") ++
      toString ((round (q * 100)).natAbs / 100)).data,
    Char.ofNat (48 + (round (q * 100)).natAbs % 100 / 10),
    Char.ofNat (48 + (round (q * 100)).natAbs % 100 % 10), ?_, ?_, ?_⟩
  · show (toFixed2 q).data = _
    rw [toFixed2]
    simp only [String.data_append, List.append_assoc]
    rfl
  · exact digitChar_isDigit _ (by omega)
  · exact digitChar_isDigit _ (by omega)

theorem pyFloat_dash : pyFloat "-" = none := by decide

/-- In every branch with a pending action popped, the new state map is
exactly the popped map. -/
theorem handle_text_message_map_of_pending (m : String → Option PendingAction)
    (user_id raw : String) (env : DownstreamEnv) (st : PendingAction)
    (h : m user_id = some st) :
    (handle_text_message m user_id raw env).1 =
      fun u => if u = user_id then none else m u := by
  obtain ⟨pr, ch, ne, gi, ge⟩ := env
  cases st <;> simp only [handle_text_message, h]
  · cases pr <;> rfl
  · rcases ch with _ | u
    · rfl
    · cases u <;> rfl
  · cases ne <;> rfl

/-! ## Claims -/

/-- C1, counterexample.  The claim states that for every input containing a
4–6 digit token — in particular "2330和2317比較" — the resolver returns the
matches and never invokes the AI fallback.  On the services resolver the
`\b`-anchored regex matches nothing in that input (the digits abut CJK word
characters), so with the AI configured the Gemini fallback IS invoked
(second component `true`), and the regex result is not `["2330","2317"]`. -/
theorem C1_counterexample_services_resolver_invokes_ai :
    (findallB "2330和2317比較".data).map mkStr = [] ∧
    extract_stock_id_from_text true (.success "None") "2330和2317比較" = (none, true) := by
  constructor <;> decide

/-- C1, amended: when the `\b`-delimited regex of
`extract_stock_id_from_text` does find tokens, the resolver returns exactly
the distinct matches (in an unspecified, set-determined order) and the AI
fallback is not invoked; inputs whose digit tokens abut CJK word characters
are not matched by `\b\d{4,6}\b` and fall through to the AI path.  The demo
`extract_stock_id`, whose pattern has no `\b`, returns `["2330","2317"]`
for "2330和2317比較" in first-seen order without any AI call (duplicates
would not be removed there). -/
theorem C1_amended_resolver_shortcircuit :
    (∀ (conf : Bool) (ai : AIOutcome) (input : String),
        (findallB input.data).map mkStr ≠ [] →
          (extract_stock_id_from_text conf ai input).2 = false ∧
          ∃ l, (extract_stock_id_from_text conf ai input).1 = some l ∧
            l.Nodup ∧ ∀ x, x ∈ l ↔ x ∈ (findallB input.data).map mkStr) ∧
    extract_stock_id .failure "2330和2317比較" = (some ["2330", "2317"], false) := by
  constructor
  · intro conf ai input h
    refine ⟨by simp [extract_stock_id_from_text, h], pySetList ((findallB input.data).map mkStr),
      by simp [extract_stock_id_from_text, h], pySetList_nodup _, fun x => mem_pySetList x _⟩
  · decide

/-- C2: `handle_text_message` pops the sender's pending action before any
branch runs, so whenever the sender had a waiting state, the state is
`none` (Idle) afterwards — for every message text and every downstream
outcome, including failing lookups (`Except.error`) — and no other user's
entry changes. -/
theorem C2_pending_action_popped_once (m : String → Option PendingAction)
    (user_id raw : String) (env : DownstreamEnv) (st : PendingAction)
    (h : m user_id = some st) :
    (handle_text_message m user_id raw env).1 user_id = none ∧
    ∀ u, u ≠ user_id → (handle_text_message m user_id raw env).1 u = m u := by
  rw [handle_text_message_map_of_pending m user_id raw env st h]
  exact ⟨by simp, fun u hu => by simp [hu]⟩

def witnessStates : String → Option PendingAction :=
  fun u => if u = "alice" then some .price else if u = "bob" then some .news else none

/-- A failing downstream environment: every lookup raises and Gemini is
unavailable. -/
def witnessEnv : DownstreamEnv := ⟨.error (), .error (), .error (), false, .raised⟩

theorem C2_pending_action_popped_once_witness :
    witnessStates "alice" = some PendingAction.price ∧
    ((handle_text_message witnessStates "alice" "2330" witnessEnv).1 "alice" = none ∧
     ∀ u, u ≠ "alice" →
       (handle_text_message witnessStates "alice" "2330" witnessEnv).1 u = witnessStates u) :=
  ⟨by decide, C2_pending_action_popped_once witnessStates "alice" "2330" witnessEnv .price (by decide)⟩

/-- C3: with all six fields present in the first `msgArray` element,
`get_stock_price` yields the six fixed-order lines (name, instant, open,
high, low, previous close); a parseable numeric value is rendered with
exactly two decimal places, `"-"` or an unparseable value renders as `"-"`;
an empty or absent `msgArray` yields the not-found message naming the code.
The embedding is a total function of the upstream outcome — every
exception class of the source maps to a message, so no exception escapes. -/
theorem C3_get_stock_price_rendering :
    (∀ sid name z o h l y : String,
        get_stock_price sid (.serverOk ⟨some
            [[("n", name), ("z", z), ("o", o), ("h", h), ("l", l), ("y", y)]]⟩) =
          "📈【" ++ name ++ "】(" ++ sid ++ ")\n" ++
          "即時：" ++ fmtPrice z ++ "\n" ++ "開盤：" ++ fmtPrice o ++ "\n" ++
          "最高：" ++ fmtPrice h ++ "\n" ++ "最低：" ++ fmtPrice l ++ "\n" ++
          "昨收：" ++ fmtPrice y) ∧
    (∀ v q, pyFloat v = some q → fmtPrice v = toFixed2 q ∧ twoDecimalShape (fmtPrice v)) ∧
    (∀ v, pyFloat v = none → fmtPrice v = "-") ∧
    (∀ sid,
        get_stock_price sid (.serverOk ⟨some []⟩) =
          "查無代號 " ++ sid ++ " 的上市股票資料，請確認輸入是否正確，或該股票是否為上市股票。" ∧
        get_stock_price sid (.serverOk ⟨none⟩) =
          "查無代號 " ++ sid ++ " 的上市股票資料，請確認輸入是否正確，或該股票是否為上市股票。") := by
  refine ⟨fun sid name z o h l y => rfl, ?_, ?_, fun sid => ⟨rfl, rfl⟩⟩
  · intro v q hq
    have hv : v ≠ "-" := fun hv => by rw [hv, pyFloat_dash] at hq; cases hq
    have : fmtPrice v = toFixed2 q := by simp [fmtPrice, hv, hq]
    exact ⟨this, this ▸ toFixed2_shape q⟩
  · intro v hv
    by_cases hd : v = "-" <;> simp [fmtPrice, hd, hv]

/-- C4 (the claim is right, the code has a slip): in
`process_news_query_and_get_summary` the zero-result reply is a plain
string literal with an uninterpolated `\x7buser_query\x7d` placeholder (the
`f` prefix is missing in the source), so the message does NOT name the
keyword: for keyword "台積電" with zero search results the reply contains
the literal characters `\x7buser_query\x7d` and not "台積電". -/
theorem C4_zero_results_message_misses_keyword :
    process_news_query_and_get_summary "台積電" (.ok []) "unused" =
      "抱歉，目前無法找到與「\x7buser_query\x7d」相關的新聞，請檢查關鍵字或稍後再試。" ∧
    containsSeq "\x7buser_query\x7d".data
      (process_news_query_and_get_summary "台積電" (.ok []) "unused").data = true ∧
    containsSeq "台積電".data
      (process_news_query_and_get_summary "台積電" (.ok []) "unused").data = false := by
  refine ⟨rfl, by decide, by decide⟩

/-- A one-point history: a single trading day within the 6-month window. -/
def oneRowStock : TwStockData :=
  ⟨[1000], [500], [505], [495], [502], [502], [1000]⟩

/-- C5, counterexample.  The claim requires `None` whenever the series has
fewer than 2 usable closing-price points; the code has no such check (and
no numeric coercion): with a single in-window data point the pipeline
proceeds to render and upload, returning the chart URL. -/
theorem C5_counterexample_single_point_chart :
    oneRowStock.close.length = 1 ∧
    generate_stock_chart_image (.ok oneRowStock) 1000 true
        (.ok "https://res.example/stock_charts/a.png") =
      (some "https://res.example/stock_charts/a.png", false) := by
  constructor <;> decide

/-- C5, amended: `generate_stock_chart_image` returns `None` — never an
exception — when the fetch raises, when the fetched series is empty
(`stock.price` empty), or generally whenever `get_stock_data_for_chart`
yields no data (columns ragged, or no rows within the trailing window);
there is no minimum-of-2-points check and no numeric coercion, so a single
in-window point already yields a chart attempt. -/
theorem C5_amended_absent_on_empty_series :
    (∀ now cloudinaryOk upload,
        generate_stock_chart_image (.error ()) now cloudinaryOk upload = (none, false)) ∧
    (∀ (stock : TwStockData) now cloudinaryOk upload, stock.price = [] →
        generate_stock_chart_image (.ok stock) now cloudinaryOk upload = (none, false)) ∧
    (∀ fetch now cloudinaryOk upload, get_stock_data_for_chart fetch now 6 = none →
        generate_stock_chart_image fetch now cloudinaryOk upload = (none, false)) := by
  refine ⟨fun now cOk up => rfl, ?_, ?_⟩
  · intro stock now cOk up h
    simp [generate_stock_chart_image, get_stock_data_for_chart, h]
  · intro fetch now cOk up h
    simp [generate_stock_chart_image, h]

/-- A minimal demo history for `txt_to_img_url`. -/
def demoStock : TwStockData := ⟨[1], [1], [1], [1], [1], [1], [1]⟩

/-- C6, counterexample.  The claim requires the temporary file to be gone
after every chart-generation invocation, upload success or failure; in the
demo `txt_to_img_url` a failed upload returns `None` without removing the
saved PNG, which therefore still exists. -/
theorem C6_counterexample_demo_leaves_file :
    txt_to_img_url (.ok demoStock) none = (none, true) := by decide

/-- C6, amended: the services `generate_stock_chart_image` removes its
temporary file in a `finally` clause, so the file is gone after every
return (upload success, upload failure, or missing credentials); the demo
`txt_to_img_url` removes its PNG only when the upload succeeds — when the
upload fails after the file was saved, the file remains on disk. -/
theorem C6_amended_cleanup_behaviour :
    (∀ fetch now cloudinaryOk upload,
        (generate_stock_chart_image fetch now cloudinaryOk upload).2 = false) ∧
    (∀ fetch url, (txt_to_img_url fetch (some url)).2 = false) ∧
    (∀ stock : TwStockData, stock.date.length = stock.close.length →
        (txt_to_img_url (.ok stock) none).2 = true) := by
  refine ⟨?_, ?_, ?_⟩
  · intro fetch now cOk up
    unfold generate_stock_chart_image
    rcases get_stock_data_for_chart fetch now 6 with _ | df
    · rfl
    · dsimp only
      split
      · rfl
      · rcases up with _ | url <;> simp [chartFinally, chartTryBody]
  · intro fetch url
    rcases fetch with _ | stock
    · rfl
    · simp only [txt_to_img_url]
      split <;> rfl
  · intro stock h
    simp [txt_to_img_url, h]

/-- C7 (resolveOne is modelled from the spec, its definition being absent
from the repository snapshot): an identifier that is not a 4–6 digit token
but is exactly a key of `DEFAULT_STOCK_DATA` resolves to that entry's code;
in particular "台積電" (which is no digit token) resolves to "2330".  The
definition of `resolveOne` takes no AI outcome at all — this path cannot
invoke the AI gateway. -/
theorem C7_resolveOne_table_hit :
    (∀ identifier code, isStockCodeToken identifier = false →
        DEFAULT_STOCK_DATA.lookup identifier = some code →
        resolveOne identifier = some code) ∧
    isStockCodeToken "台積電" = false ∧
    resolveOne "台積電" = some "2330" := by
  refine ⟨?_, by decide, by decide⟩
  intro identifier code h1 h2
  simp [resolveOne, h1, h2]

/-- C8: when the AI call of either resolver raises, the failure is caught
and converted to an absent result — whenever the AI fallback was invoked
(second component `true`) under a failing AI, the returned value is `none`.
Both embeddings are total functions, so no exception reaches the caller. -/
theorem C8_ai_failure_caught_as_absent :
    (∀ conf input, (extract_stock_id_from_text conf .failure input).2 = true →
        (extract_stock_id_from_text conf .failure input).1 = none) ∧
    (∀ input, (extract_stock_id .failure input).2 = true →
        (extract_stock_id .failure input).1 = none) := by
  constructor
  · intro conf input h
    by_cases hm : (findallB input.data).map mkStr ≠ []
    · simp [extract_stock_id_from_text, hm] at h
    · simp only [extract_stock_id_from_text]
      rw [if_neg hm]
      split <;> rfl
  · intro input h
    by_cases hm : (findallPlain input.data).map mkStr ≠ []
    · simp [extract_stock_id, hm] at h
    · simp only [extract_stock_id]
      rw [if_neg hm]

/-- C9: the webhook `callback` (SDK initialized) rejects an invalid
signature with 400 before any handler dispatched; on successful
verification it answers 200 with the fixed body "OK" whatever the handlers
produced; an exception while dispatching yields 500. -/
theorem C9_callback_statuses :
    callback true .invalidSignature = (400, none, []) ∧
    (∀ dispatched, callback true (.ok dispatched) = (200, some "OK", dispatched)) ∧
    callback true .raised = (500, none, []) :=
  ⟨rfl, fun _ => rfl, rfl⟩

/-- C10: every branch of `handle_text_message` appends exactly one reply
message (a Text or an Image) — in particular at most one, though the
platform permits batches of five. -/
theorem C10_single_reply_message :
    ∀ (m : String → Option PendingAction) (user_id raw : String) (env : DownstreamEnv),
      (handle_text_message m user_id raw env).2.length = 1 := by
  intro m user_id raw env
  obtain ⟨pr, ch, ne, gi, ge⟩ := env
  unfold handle_text_message
  rcases hm : m user_id with _ | st
  · dsimp only
    split
    · rfl
    · split
      · rfl
      · split
        · rfl
        · split
          · rcases ge with ⟨t, b⟩ | _ <;> rfl
          · rfl
  · cases st
    · cases pr <;> rfl
    · rcases ch with _ | u
      · rfl
      · cases u <;> rfl
    · cases ne <;> rfl

end StockBot
